import Mathlib

/-!
Verification of the bluez-hci crate (src/io.rs, src/filter.rs, src/socket.rs).

Shallow embedding conventions:
- bytes and machine integers are `Nat`; wrapping is explicit via `% 2 ^ w`;
- fallible Rust functions return `Except IOError`;
- a Rust panic is a distinct `Outcome.panicked` value;
- the target is x86-64 linux, little-endian, so `u16::to_le` is the identity
  and the alignment of `u64` inside a `repr(C)` struct is 8.
-/

namespace BluezHci

/-- Model of `std::io::Error` as this crate builds and observes it:
either `Error::new(InvalidInput, msg)` or `Error::from_raw_os_error(code)`. -/
inductive IOError where
  | invalidInput (msg : String)
  | osError (code : Nat)
  deriving DecidableEq

deriving instance DecidableEq for Except

/-- Linux errno ETIMEDOUT, used by `poll_with_timeout` and the attempt-cap exit. -/
def errnoTimedOut : Nat := 110

/-- Linux errno used by `Error::from_raw_os_error(EIO)` on a matching CmdStatus. -/
def errnoIoErr : Nat := 5

/-- Result of running a piece of Rust code that may also panic. -/
inductive Outcome (α : Type) where
  | ok (a : α)
  | error (e : IOError)
  | panicked
  deriving DecidableEq

/-! ## src/io.rs — the little-endian integer codec -/

/-- Little-endian byte string of `v` truncated to `w` bytes, as produced by
Rust's `to_le_bytes` on a `w`-byte unsigned integer. -/
def toLeBytes : Nat → Nat → List Nat
  | 0, _ => []
  | w + 1, v => v % 256 :: toLeBytes w (v / 256)

/-- Value of a little-endian byte string, as computed by Rust's
`from_le_bytes`; each entry is interpreted as a byte (`% 256`). -/
def fromLeBytes : List Nat → Nat
  | [] => 0
  | b :: bs => b % 256 + 256 * fromLeBytes bs

/-- Core of `impl_read_from_int!` specialised to a `&[u8]` reader (the only
reader this crate uses for integers): `r.read` on a slice copies
`min w src.length` bytes into a zero-initialised `w`-byte buffer and never
fails; `from_le_bytes` then decodes the whole buffer.  Returns
`((value, bytes_consumed), remaining_source)`. -/
def readIntSl (w : Nat) (src : List Nat) : (Nat × Nat) × List Nat :=
  let n := min w src.length
  ((fromLeBytes (src.take n ++ List.replicate (w - n) 0), n), src.drop n)

/-- Model of `impl_read_from_int!`'s `read_from` for u8/u16/u32/u64 (widths
1, 2, 4, 8) on a byte-slice source.  The `?` in the source can only propagate
a slice-read failure, and a slice read never fails, so the result is always
`.ok`. -/
def readIntLe (w : Nat) (src : List Nat) : Except IOError ((Nat × Nat) × List Nat) :=
  .ok (readIntSl w src)

/-- Model of `impl_write_as_int!`'s `write_to` into a `Vec` sink (`bytes()`):
`Vec::write` always writes the full `to_le_bytes` buffer and reports its
length. -/
def writeIntLe (w v : Nat) (sink : List Nat) : Except IOError (Nat × List Nat) :=
  .ok (w, sink ++ toLeBytes w v)

/-! ## src/filter.rs — HciFilter -/

/-- The three fields of `struct HciFilter`; field values are kept in their
Rust ranges (`type_mask : u32`, `event_mask : u64`, `opcode : u16`) by every
operation below. -/
structure HciFilter where
  type_mask : Nat
  event_mask : Nat
  opcode : Nat
  deriving DecidableEq

/-- Derived `Default`: all fields zero. -/
def HciFilter.default : HciFilter := ⟨0, 0, 0⟩

/-- Model of `fn set_type(&mut self, t: u8) -> Result<()>`: the pair is the
struct after the call together with the returned `Result`; on the error
branch the struct is untouched. -/
def HciFilter.set_type (f : HciFilter) (t : Nat) : HciFilter × Except IOError Unit :=
  if t < 32 then
    ({ f with type_mask := f.type_mask ||| 1 <<< t }, .ok ())
  else
    (f, .error (.invalidInput "Ptype out of range"))

/-- Model of `fn unset_type`; `!(1 << t)` on u32 is the 32-bit complement
`(2 ^ 32 - 1) ^^^ (1 <<< t)`. -/
def HciFilter.unset_type (f : HciFilter) (t : Nat) : HciFilter × Except IOError Unit :=
  if t < 32 then
    ({ f with type_mask := f.type_mask &&& ((2 ^ 32 - 1) ^^^ 1 <<< t) }, .ok ())
  else
    (f, .error (.invalidInput "Ptype out of range"))

/-- Model of `fn set_event(&mut self, event: u8) -> Result<()>`. -/
def HciFilter.set_event (f : HciFilter) (e : Nat) : HciFilter × Except IOError Unit :=
  if e < 64 then
    ({ f with event_mask := f.event_mask ||| 1 <<< e }, .ok ())
  else
    (f, .error (.invalidInput "Event out of range"))

/-- Model of `fn unset_event`; `!(1 << event)` on u64 is the 64-bit
complement. -/
def HciFilter.unset_event (f : HciFilter) (e : Nat) : HciFilter × Except IOError Unit :=
  if e < 64 then
    ({ f with event_mask := f.event_mask &&& ((2 ^ 64 - 1) ^^^ 1 <<< e) }, .ok ())
  else
    (f, .error (.invalidInput "Event out of range"))

/-- Model of `fn set_opcode(&mut self, opcode: u16)`. -/
def HciFilter.set_opcode (f : HciFilter) (v : Nat) : HciFilter :=
  { f with opcode := v }

/-! ## repr(C) layout of HciFilter (for `size_of::<HciFilter>()`) -/

/-- Round `off` up to the next multiple of the alignment `a`. -/
def alignUp (off a : Nat) : Nat := (off + a - 1) / a * a

/-- Size of a `repr(C)` struct with the given `(size, align)` fields: each
field is placed at its alignment, and the total is rounded up to the struct's
alignment (the maximum field alignment).  This is the layout Rust guarantees
for `repr(C)` on the target ABI. -/
def reprCStructSize (fields : List (Nat × Nat)) : Nat :=
  let maxAlign := fields.foldl (fun m p => max m p.2) 1
  let endOff := fields.foldl (fun off p => alignUp off p.2 + p.1) 0
  alignUp endOff maxAlign

/-- Fields of `#[repr(C)] struct HciFilter`: `u32` (4, 4), `u64` (8, 8),
`u16` (2, 2) on x86-64 linux. -/
def hciFilterFields : List (Nat × Nat) := [(4, 4), (8, 8), (2, 2)]

/-- Value of `size_of::<HciFilter>()`. -/
def hciFilterSizeOf : Nat := reprCStructSize hciFilterFields

/-- The socket-option length that `get_filter` and `set_filter` pass to
`getsockopt`/`setsockopt`: both use `size_of::<HciFilter>() as socklen_t`. -/
def filterOptLen : Nat := hciFilterSizeOf

/-! ## src/socket.rs — opcode packing -/

/-- Model of `fn cmd_opcode_pack(ogf: u16, ocf: u16) -> u16`, namely
`(ocf & 0x03ff) | (ogf << 10)`; the u16 shift discards bits above bit 15,
hence the `% 2 ^ 16`. -/
def cmd_opcode_pack (ogf ocf : Nat) : Nat :=
  (ocf &&& 0x03ff) ||| (ogf <<< 10) % 2 ^ 16

/-! ## src/socket.rs — event decoding -/

/-- Constant `HCI_EVENT_PKT`. -/
def HCI_EVENT_PKT : Nat := 0x04

/-- Constant `EVT_CMD_COMPLETE`. -/
def EVT_CMD_COMPLETE : Nat := 0x0E

/-- Constant `EVT_CMD_STATUS`. -/
def EVT_CMD_STATUS : Nat := 0x0F

/-- Constant `HCI_MAX_EVENT_SIZE`, the receive buffer length in
`Event::read_from`. -/
def HCI_MAX_EVENT_SIZE : Nat := 260

/-- The two u8 fields of `struct EventHeader`. -/
structure EventHeader where
  event : Nat
  plen : Nat
  deriving DecidableEq

/-- The tagged body of `enum EventBody`. -/
inductive EventBody where
  | unsupported
  | cmdComplete (ncmd opcode : Nat)
  | cmdStatus (status ncmd opcode : Nat)
  deriving DecidableEq

/-- `struct Event`: parsed header, tagged body, and the raw bytes left in the
buffer after the parsed fields. -/
structure Event where
  header : EventHeader
  body : EventBody
  data : List Nat
  deriving DecidableEq

/-- Model of the body of `impl ReadFrom for Event` applied to the byte string
`pkt` that the single `r.read` call deposited in the buffer.  On an empty
read, `&buf_r[1..]` indexes past the end of the empty slice, which panics.
All further reads come from a `&[u8]` and never fail (short ones yield
zero-filled defaults), so every nonempty `pkt` decodes to `.ok`; the second
component is the value `size` the source returns, i.e. `pkt.length`. -/
def decodeEvent (pkt : List Nat) : Outcome (Event × Nat) :=
  match pkt with
  | [] => .panicked
  | _ :: afterPrefix =>
    let ((ev, _), r1) := readIntSl 1 afterPrefix
    let ((pl, _), r2) := readIntSl 1 r1
    let hdr : EventHeader := ⟨ev, pl⟩
    if ev = 0x0E then
      let ((ncmd, _), r3) := readIntSl 1 r2
      let ((opc, _), r4) := readIntSl 2 r3
      .ok (⟨hdr, .cmdComplete ncmd opc, r4⟩, pkt.length)
    else if ev = 0x0F then
      let ((st, _), r3) := readIntSl 1 r2
      let ((ncmd, _), r4) := readIntSl 1 r3
      let ((opc, _), r5) := readIntSl 2 r4
      .ok (⟨hdr, .cmdStatus st ncmd opc, r5⟩, pkt.length)
    else
      .ok (⟨hdr, .unsupported, r2⟩, pkt.length)

/-- Model of `Event::read_from` given the result of the underlying socket
read: a failed read propagates through `?`; a successful read of a packet is
truncated to the `HCI_MAX_EVENT_SIZE` buffer and decoded. -/
def eventReadFrom (rd : Except IOError (List Nat)) : Outcome (Event × Nat) :=
  match rd with
  | .error e => .error e
  | .ok pkt => decodeEvent (pkt.take HCI_MAX_EVENT_SIZE)

/-! ## src/socket.rs — send_req over a scripted transport socket -/

/-- Scripted model of `Socket` for the request/response protocol: `filter` is
the kernel-resident filter this socket's `getsockopt`/`setsockopt` round-trip
(both modelled as succeeding on a scripted socket); `sendResult` is the
outcome of the single `send_cmd` vectored write; `polls` and `reads` script
the successive `poll_with_timeout` outcomes (after its internal EAGAIN/EINTR
retries) and raw packet reads, indexed by `pollIdx`/`readIdx`. -/
structure ScriptSocket where
  filter : HciFilter
  sendResult : Except IOError Nat
  polls : Nat → Except IOError Unit
  reads : Nat → Except IOError (List Nat)
  pollIdx : Nat
  readIdx : Nat

/-- Unwrap a `&mut self -> Result<()>` step, keeping the mutated value only
when the call succeeded (the `?` operator on such a call). -/
def chk {α : Type} : α × Except IOError Unit → Except IOError α
  | (a, .ok _) => .ok a
  | (_, .error e) => .error e

/-- The narrowed filter built at the top of `send_req`: start from the
default filter, `set_type(HCI_EVENT_PKT)?`, `set_event(EVT_CMD_STATUS)?`,
`set_event(EVT_CMD_COMPLETE)?`, then `set_opcode(opcode)`. -/
def mkReqFilter (opcode : Nat) : Except IOError HciFilter := do
  let f ← chk (HciFilter.default.set_type HCI_EVENT_PKT)
  let f ← chk (f.set_event EVT_CMD_STATUS)
  let f ← chk (f.set_event EVT_CMD_COMPLETE)
  pure (f.set_opcode opcode)

/-- The `match response.body` statement inside `send_req`'s loop: a
CmdStatus with the request's opcode returns `Err(EIO)`, a CmdComplete with
the request's opcode returns `Ok(response.data)`, anything else falls
through to the next attempt. -/
def matchResponse (opcode : Nat) (e : Event) : Option (Except IOError (List Nat)) :=
  match e.body with
  | .cmdStatus _ _ r => if r = opcode then some (.error (.osError errnoIoErr)) else none
  | .cmdComplete _ r => if r = opcode then some (.ok e.data) else none
  | .unsupported => none

/-- The `for _ in 0..10` polling loop of `send_req`, with the remaining
attempt count as the recursion measure.  When the remaining `timeout` is
positive, one scripted poll outcome is consumed and the timeout is lowered
by the fixed step 10, clamped at zero; then one packet is read and decoded,
and the body match either returns or continues.  Exhausting the attempts
yields `Err(ETIMEDOUT)`. -/
def reqLoop (opcode : Nat) : Nat → Int → ScriptSocket → Outcome (List Nat) × ScriptSocket
  | 0, _, s => (.error (.osError errnoTimedOut), s)
  | n + 1, timeout, s =>
    let polled : Except IOError Unit × Int × ScriptSocket :=
      if timeout > 0 then
        let t := timeout - 10
        (s.polls s.pollIdx, if t < 0 then 0 else t, { s with pollIdx := s.pollIdx + 1 })
      else
        (.ok (), timeout, s)
    match polled with
    | (.error e, _, s) => (.error e, s)
    | (.ok _, timeout, s) =>
      let rd := s.reads s.readIdx
      let s := { s with readIdx := s.readIdx + 1 }
      match eventReadFrom rd with
      | .panicked => (.panicked, s)
      | .error e => (.error e, s)
      | .ok (ev, _) =>
        match matchResponse opcode ev with
        | some (.ok d) => (.ok d, s)
        | some (.error e) => (.error e, s)
        | none => reqLoop opcode n timeout s

/-- Model of `Socket::send_req(ogf, ocf, _event, command, timeout)`.  It
packs the opcode (`to_le` is the identity on the little-endian target),
saves the current filter via `get_filter`, installs the narrowed filter,
sends the command, runs the ten-attempt loop, and re-installs the saved
filter around the loop's result.  Note the `?` on `send_cmd`: a send failure
returns before the restore point, exactly as in the source. -/
def send_req (s : ScriptSocket) (ogf ocf : Nat) (_command : List Nat)
    (timeout : Int) : Outcome (List Nat) × ScriptSocket :=
  let opcode := cmd_opcode_pack ogf ocf
  let old_filter := s.filter
  match mkReqFilter opcode with
  | .error e => (.error e, s)
  | .ok new_filter =>
    let s := { s with filter := new_filter }
    match s.sendResult with
    | .error e => (.error e, s)
    | .ok _ =>
      let p := reqLoop opcode 10 timeout s
      (p.1, { p.2 with filter := old_filter })

/-- Reinterpret the `Result` produced by the loop body's `return` statements
as an `Outcome` (the loop body cannot panic once the event is decoded). -/
def exceptToOutcome : Except IOError (List Nat) → Outcome (List Nat)
  | .ok d => .ok d
  | .error e => .error e

/-! ## Concrete scripted sockets used as witnesses -/

/-- Scripted socket whose `send_cmd` fails with errno 19 (ENODEV) after the
narrowed filter has been installed. -/
def sockSendFail : ScriptSocket :=
  { filter := ⟨7, 9, 3⟩, sendResult := .error (.osError 19),
    polls := fun _ => .ok (), reads := fun _ => .ok [],
    pollIdx := 0, readIdx := 0 }

/-- Scripted socket that answers every read with a CmdComplete packet whose
opcode is `cmd_opcode_pack 3 0x24 = 0x0C24` (little-endian bytes
`0x24, 0x0C`) followed by one return-parameter byte `0xAA`. -/
def sockCmdComplete : ScriptSocket :=
  { filter := ⟨7, 9, 3⟩, sendResult := .ok 4,
    polls := fun _ => .ok (),
    reads := fun _ => .ok [4, 0x0E, 4, 1, 0x24, 0x0C, 0xAA],
    pollIdx := 0, readIdx := 0 }

/-- Scripted socket that answers every read with a CmdStatus packet whose
opcode is `cmd_opcode_pack 3 0x24 = 0x0C24`. -/
def sockCmdStatus : ScriptSocket :=
  { filter := ⟨7, 9, 3⟩, sendResult := .ok 4,
    polls := fun _ => .ok (),
    reads := fun _ => .ok [4, 0x0F, 4, 0, 1, 0x24, 0x0C],
    pollIdx := 0, readIdx := 0 }

/-- Scripted socket that only ever delivers an event of the unsupported kind
0x10, so no attempt ever matches. -/
def sockNoMatch : ScriptSocket :=
  { filter := ⟨7, 9, 3⟩, sendResult := .ok 4,
    polls := fun _ => .ok (), reads := fun _ => .ok [4, 0x10, 0],
    pollIdx := 0, readIdx := 0 }

/-! ## Codec lemmas -/

theorem toLeBytes_length (w : Nat) : ∀ v, (toLeBytes w v).length = w := by
  induction w with
  | zero => intro v; rfl
  | succ w ih => intro v; simp [toLeBytes, ih]

theorem fromLeBytes_toLeBytes (w : Nat) :
    ∀ v, v < 2 ^ (8 * w) → fromLeBytes (toLeBytes w v) = v := by
  induction w with
  | zero =>
    intro v hv
    simp only [Nat.mul_zero, Nat.pow_zero, Nat.lt_one_iff] at hv
    simp [toLeBytes, fromLeBytes, hv]
  | succ w ih =>
    intro v hv
    have hq : v / 256 < 2 ^ (8 * w) := by
      have h2 : (2 : Nat) ^ (8 * (w + 1)) = 2 ^ (8 * w) * 256 := by
        rw [Nat.mul_succ, Nat.pow_add]
      rw [h2] at hv
      generalize 2 ^ (8 * w) = a at *
      omega
    simp only [toLeBytes, fromLeBytes, ih (v / 256) hq]
    omega

/-- C10: for each supported width (1, 2, 4, 8 bytes) and each in-range value,
`write_to` emits exactly `w` bytes (the little-endian encoding) and
`read_from` on those bytes returns the original value having consumed
exactly `w` bytes, leaving nothing unread. -/
theorem int_codec_roundtrip (w v : Nat) (_hw : w = 1 ∨ w = 2 ∨ w = 4 ∨ w = 8)
    (hv : v < 2 ^ (8 * w)) :
    writeIntLe w v [] = .ok (w, toLeBytes w v) ∧
    readIntLe w (toLeBytes w v) = .ok ((v, w), []) := by
  refine ⟨rfl, ?_⟩
  have hlen := toLeBytes_length w v
  simp [readIntLe, readIntSl, hlen, List.take_of_length_le (le_of_eq hlen),
    List.drop_of_length_le (le_of_eq hlen), fromLeBytes_toLeBytes w v hv]

/-- Witness for C10 at width 2 and value 0x1234. -/
theorem int_codec_roundtrip_witness :
    ((2 : Nat) = 1 ∨ (2 : Nat) = 2 ∨ (2 : Nat) = 4 ∨ (2 : Nat) = 8) ∧
    0x1234 < 2 ^ (8 * 2) ∧
    (writeIntLe 2 0x1234 [] = .ok (2, toLeBytes 2 0x1234) ∧
      readIntLe 2 (toLeBytes 2 0x1234) = .ok ((0x1234, 2), [])) :=
  ⟨by decide, by decide, int_codec_roundtrip 2 0x1234 (by decide) (by decide)⟩

/-- C6 counterexample: `read_from` for u16 on an empty source returns `Ok`
with `bytes_consumed = 0`, which is not the type's width 2 — so a short
source does not make `read_from` fail. -/
theorem readIntLe_short_returns_ok :
    readIntLe 2 [] = .ok ((0, 0), []) ∧ (0 : Nat) ≠ 2 := by decide

/-- C6 (amended): `read_from` never fails on a byte-slice source; it returns
`Ok` with `bytes_consumed = min width available`, so `bytes_consumed` equals
the width exactly when at least `width` bytes are available — a shorter
source yields a smaller count (with missing bytes decoded as zero), which
callers must check. -/
theorem readIntLe_consumed (w : Nat) (src : List Nat) :
    ∃ v rest, readIntLe w src = .ok ((v, min w src.length), rest) ∧
      (min w src.length = w ↔ w ≤ src.length) :=
  ⟨_, _, rfl, by omega⟩

/-- C2: decoding one received event from a read that yielded zero bytes
panics (the slice expression `&buf_r[1..]` indexes out of bounds), and from
a one-byte read returns `Ok` with an event fabricated out of zero defaults —
in neither case is a short-read error returned. -/
theorem event_decode_short_read :
    decodeEvent [] = Outcome.panicked ∧
    decodeEvent [0x00] = .ok (⟨⟨0, 0⟩, .unsupported, []⟩, 1) ∧
    eventReadFrom (.ok []) = Outcome.panicked ∧
    eventReadFrom (.ok [0x00]) = .ok (⟨⟨0, 0⟩, .unsupported, []⟩, 1) := by decide

/-- C4: the `repr(C)` layout of `HciFilter` on the target inserts 4 bytes of
padding after `type_mask` and 6 bytes of tail padding, so
`size_of::<HciFilter>()` is 24, not the packed 4 + 8 + 2 = 14, and 24 is the
socket-option length `get_filter`/`set_filter` pass to the kernel. -/
theorem hciFilter_sizeof :
    hciFilterSizeOf = 24 ∧ filterOptLen = 24 ∧ hciFilterSizeOf ≠ 4 + 8 + 2 := by decide

/-! ## Filter bit accessors -/

/-- C9: for a bit index out of range (≥ 32 for types, ≥ 64 for events) every
set/unset accessor returns an InvalidInput error and leaves the whole filter
unchanged; for indices in range the accessors succeed. -/
theorem filter_bit_index_range (f : HciFilter) (t e : Nat)
    (ht : 32 ≤ t) (he : 64 ≤ e) :
    f.set_type t = (f, .error (.invalidInput "Ptype out of range")) ∧
    f.unset_type t = (f, .error (.invalidInput "Ptype out of range")) ∧
    f.set_event e = (f, .error (.invalidInput "Event out of range")) ∧
    f.unset_event e = (f, .error (.invalidInput "Event out of range")) ∧
    (∀ t2, t2 < 32 → (f.set_type t2).2 = .ok () ∧ (f.unset_type t2).2 = .ok ()) ∧
    (∀ e2, e2 < 64 → (f.set_event e2).2 = .ok () ∧ (f.unset_event e2).2 = .ok ()) := by
  have h1 : ¬ t < 32 := by omega
  have h2 : ¬ e < 64 := by omega
  refine ⟨?_, ?_, ?_, ?_, fun t2 h => ?_, fun e2 h => ?_⟩ <;>
    simp_all [HciFilter.set_type, HciFilter.unset_type, HciFilter.set_event,
      HciFilter.unset_event]

/-- Witness for C9 at the zero filter with indices 32 and 64 (out of range)
and 4 and 63 (in range). -/
theorem filter_bit_index_range_witness :
    (32 : Nat) ≤ 32 ∧ (64 : Nat) ≤ 64 ∧
    HciFilter.default.set_type 32 =
      (HciFilter.default, .error (.invalidInput "Ptype out of range")) ∧
    HciFilter.default.set_event 64 =
      (HciFilter.default, .error (.invalidInput "Event out of range")) ∧
    (HciFilter.default.set_type 4).2 = .ok () ∧
    (HciFilter.default.set_event 63).2 = .ok () :=
  have h := filter_bit_index_range HciFilter.default 32 64 (by decide) (by decide)
  ⟨by decide, by decide, h.1, h.2.2.1,
    (h.2.2.2.2.1 4 (by decide)).1, (h.2.2.2.2.2 63 (by decide)).1⟩

/-! ## Opcode packing -/

theorem cmd_opcode_pack_eq (g f : Nat) (hg : g ≤ 63) (hf : f ≤ 1023) :
    cmd_opcode_pack g f = 1024 * g + f := by
  unfold cmd_opcode_pack
  have h1 : f &&& 0x03ff = f := by
    have hm : (0x03ff : Nat) = 2 ^ 10 - 1 := by norm_num
    rw [hm, Nat.and_pow_two_sub_one_eq_mod, Nat.mod_eq_of_lt (by omega)]
  have h2 : g <<< 10 % 2 ^ 16 = 2 ^ 10 * g := by
    rw [Nat.shiftLeft_eq, Nat.mod_eq_of_lt (by norm_num; omega), Nat.mul_comm]
  rw [h1, h2, Nat.lor_comm, ← Nat.mul_add_lt_is_or (by omega) g]

/-- C5: `cmd_opcode_pack` is injective on in-range inputs (group ≤ 63,
feature ≤ 1023), and feature bits above bit 9 are masked off, so packing
features 0x0401 and 0x0001 under group 1 collide. -/
theorem cmd_opcode_pack_injective (g1 f1 g2 f2 : Nat)
    (hg1 : g1 ≤ 63) (hf1 : f1 ≤ 1023) (hg2 : g2 ≤ 63) (hf2 : f2 ≤ 1023)
    (hne : (g1, f1) ≠ (g2, f2)) :
    cmd_opcode_pack g1 f1 ≠ cmd_opcode_pack g2 f2 ∧
    cmd_opcode_pack 1 0x0401 = cmd_opcode_pack 1 0x0001 := by
  refine ⟨?_, by decide⟩
  rw [cmd_opcode_pack_eq g1 f1 hg1 hf1, cmd_opcode_pack_eq g2 f2 hg2 hf2]
  intro h
  exact hne (Prod.ext (by omega) (by omega))

/-- Witness for C5 at the pairs (1, 2) and (3, 4). -/
theorem cmd_opcode_pack_injective_witness :
    (1 : Nat) ≤ 63 ∧ (2 : Nat) ≤ 1023 ∧ (3 : Nat) ≤ 63 ∧ (4 : Nat) ≤ 1023 ∧
    ((1, 2) : Nat × Nat) ≠ (3, 4) ∧
    (cmd_opcode_pack 1 2 ≠ cmd_opcode_pack 3 4 ∧
      cmd_opcode_pack 1 0x0401 = cmd_opcode_pack 1 0x0001) :=
  ⟨by decide, by decide, by decide, by decide, by decide,
    cmd_opcode_pack_injective 1 2 3 4 (by decide) (by decide) (by decide)
      (by decide) (by decide)⟩

/-! ## Event decoding lemmas -/

theorem readIntSl_one (a : Nat) (l : List Nat) :
    readIntSl 1 (a :: l) = ((a % 256, 1), l) := by
  simp [readIntSl, fromLeBytes]

theorem readIntSl_two (a b : Nat) (l : List Nat) :
    readIntSl 2 (a :: b :: l) = ((a % 256 + 256 * (b % 256), 2), l) := by
  simp [readIntSl, fromLeBytes, Nat.min_def]

theorem decodeEvent_cmdComplete (b0 plen ncmd o1 o2 : Nat) (rest : List Nat) :
    decodeEvent (b0 :: 0x0E :: plen :: ncmd :: o1 :: o2 :: rest) =
      .ok (⟨⟨0x0E, plen % 256⟩,
        .cmdComplete (ncmd % 256) (o1 % 256 + 256 * (o2 % 256)), rest⟩,
        rest.length + 6) := by
  simp [decodeEvent, readIntSl_one, readIntSl_two]

theorem decodeEvent_cmdStatus (b0 plen st ncmd o1 o2 : Nat) (rest : List Nat) :
    decodeEvent (b0 :: 0x0F :: plen :: st :: ncmd :: o1 :: o2 :: rest) =
      .ok (⟨⟨0x0F, plen % 256⟩,
        .cmdStatus (st % 256) (ncmd % 256) (o1 % 256 + 256 * (o2 % 256)), rest⟩,
        rest.length + 7) := by
  simp [decodeEvent, readIntSl_one, readIntSl_two]

/-! ## send_req lemmas -/

theorem mkReqFilter_eq (o : Nat) : mkReqFilter o = .ok ⟨16, 49152, o⟩ := rfl

/-- Shape of `send_req` once the command was sent successfully: the result is
the loop's result, and the filter ends up restored to its initial value no
matter how the loop exits. -/
theorem send_req_after_send (s : ScriptSocket) (ogf ocf : Nat) (cmd : List Nat)
    (timeout : Int) (k : Nat) (hsend : s.sendResult = .ok k) :
    send_req s ogf ocf cmd timeout =
      ((reqLoop (cmd_opcode_pack ogf ocf) 10 timeout
          { s with filter := ⟨16, 49152, cmd_opcode_pack ogf ocf⟩ }).1,
        { (reqLoop (cmd_opcode_pack ogf ocf) 10 timeout
            { s with filter := ⟨16, 49152, cmd_opcode_pack ogf ocf⟩ }).2
          with filter := s.filter }) := by
  simp [send_req, mkReqFilter_eq, hsend]

/-- First-iteration exit of the polling loop: if the scripted poll is ready,
the next read decodes to an event, and that event matches (as CmdComplete or
CmdStatus for the request's opcode), the loop returns that arm's result. -/
theorem reqLoop_first_hit (opcode n : Nat) (timeout : Int) (s : ScriptSocket)
    (ev : Event) (m : Nat) (r : Except IOError (List Nat))
    (hpoll : s.polls s.pollIdx = .ok ())
    (hread : eventReadFrom (s.reads s.readIdx) = .ok (ev, m))
    (hmatch : matchResponse opcode ev = some r) :
    (reqLoop opcode (n + 1) timeout s).1 = exceptToOutcome r ∧
    (reqLoop opcode (n + 1) timeout s).2.readIdx = s.readIdx + 1 := by
  by_cases ht : timeout > 0 <;>
    · simp only [reqLoop, ht, if_true, if_false, hpoll, hread, hmatch]
      cases r <;> simp [exceptToOutcome]

/-- Exhaustion of the polling loop: when every scripted poll is ready and
every scripted read decodes to an event that matches neither arm, the loop
runs out of attempts and yields `Err(ETIMEDOUT)`, leaving the filter
untouched. -/
theorem reqLoop_no_match (opcode : Nat) (n : Nat) :
    ∀ (timeout : Int) (s : ScriptSocket),
      (∀ i, s.polls i = .ok ()) →
      (∀ i, ∃ ev m, eventReadFrom (s.reads i) = .ok (ev, m) ∧
        matchResponse opcode ev = none) →
      (reqLoop opcode n timeout s).1 = .error (.osError errnoTimedOut) ∧
      (reqLoop opcode n timeout s).2.filter = s.filter := by
  induction n with
  | zero => intro timeout s hp hr; exact ⟨rfl, rfl⟩
  | succ n ih =>
    intro timeout s hp hr
    obtain ⟨ev, m, hread, hm⟩ := hr s.readIdx
    by_cases ht : timeout > 0 <;>
      · simp only [reqLoop, ht, if_true, if_false, hp s.pollIdx, hread, hm]
        exact ih _ _ hp hr

/-! ## send_req claims -/

/-- C1: the filter save/restore bracket of `send_req` is broken on the send
path.  With the saved filter being `⟨7, 9, 3⟩` and a scripted socket whose
`send_cmd` fails with errno 19 after the narrowed filter was installed by a
successful `set_filter`, `send_req` propagates the send error while the
socket is left with the narrowed filter `⟨16, 49152, 0x0C24⟩` installed — the
saved filter is not restored on this exit path. -/
theorem send_req_send_failure_skips_restore :
    (send_req sockSendFail 3 0x24 [] 1000).1 = .error (.osError 19) ∧
    (send_req sockSendFail 3 0x24 [] 1000).2.filter =
      ⟨16, 49152, cmd_opcode_pack 3 0x24⟩ ∧
    (send_req sockSendFail 3 0x24 [] 1000).2.filter ≠ sockSendFail.filter := by decide

/-- C3: when the command was sent and the first received packet carries a
CmdComplete event whose little-endian opcode field equals the request's
packed opcode, `send_req` succeeds, returning exactly the packet bytes after
the prefix byte, the two header bytes, ncmd, and the two opcode bytes; and
the filter in effect afterwards equals the filter in effect before the
call. -/
theorem send_req_cmd_complete_success (s : ScriptSocket)
    (ogf ocf k b0 plen ncmd o1 o2 : Nat) (rest cmd : List Nat) (timeout : Int)
    (hsend : s.sendResult = .ok k)
    (hpoll : s.polls s.pollIdx = .ok ())
    (hread : s.reads s.readIdx = .ok (b0 :: 0x0E :: plen :: ncmd :: o1 :: o2 :: rest))
    (hlen : rest.length + 6 ≤ HCI_MAX_EVENT_SIZE)
    (hop : o1 % 256 + 256 * (o2 % 256) = cmd_opcode_pack ogf ocf) :
    (send_req s ogf ocf cmd timeout).1 = .ok rest ∧
    (send_req s ogf ocf cmd timeout).2.filter = s.filter := by
  have hev : eventReadFrom (s.reads s.readIdx) =
      .ok (⟨⟨0x0E, plen % 256⟩,
        .cmdComplete (ncmd % 256) (cmd_opcode_pack ogf ocf), rest⟩,
        rest.length + 6) := by
    rw [hread]
    simp only [eventReadFrom]
    rw [List.take_of_length_le (by simp [HCI_MAX_EVENT_SIZE] at hlen ⊢; omega),
      decodeEvent_cmdComplete, hop]
  rw [send_req_after_send s ogf ocf cmd timeout k hsend]
  refine ⟨?_, rfl⟩
  have h := reqLoop_first_hit (cmd_opcode_pack ogf ocf) 9 timeout
    { s with filter := ⟨16, 49152, cmd_opcode_pack ogf ocf⟩ }
    ⟨⟨0x0E, plen % 256⟩, .cmdComplete (ncmd % 256) (cmd_opcode_pack ogf ocf), rest⟩
    (rest.length + 6) (.ok rest) hpoll hev (by simp [matchResponse])
  exact h.1

/-- Witness for C3 on the scripted socket whose first packet is a
CmdComplete for opcode 0x0C24 with return parameter byte 0xAA. -/
theorem send_req_cmd_complete_success_witness :
    sockCmdComplete.sendResult = .ok 4 ∧
    sockCmdComplete.polls sockCmdComplete.pollIdx = .ok () ∧
    sockCmdComplete.reads sockCmdComplete.readIdx =
      .ok (4 :: 0x0E :: 4 :: 1 :: 0x24 :: 0x0C :: [0xAA]) ∧
    [0xAA].length + 6 ≤ HCI_MAX_EVENT_SIZE ∧
    0x24 % 256 + 256 * (0x0C % 256) = cmd_opcode_pack 3 0x24 ∧
    ((send_req sockCmdComplete 3 0x24 [] 1000).1 = .ok [0xAA] ∧
      (send_req sockCmdComplete 3 0x24 [] 1000).2.filter = sockCmdComplete.filter) :=
  ⟨rfl, rfl, rfl, by decide, by decide,
    send_req_cmd_complete_success sockCmdComplete 3 0x24 4 4 4 1 0x24 0x0C
      [0xAA] [] 1000 rfl rfl rfl (by decide) (by decide)⟩

/-- C7: when the first received packet carries a CmdStatus event whose
opcode equals the request's packed opcode, `send_req` fails immediately with
the I/O-class error `Error::from_raw_os_error(EIO)`, consuming exactly one
receive — it does not keep polling for the eventual CmdComplete. -/
theorem send_req_cmd_status_fails (s : ScriptSocket)
    (ogf ocf k b0 plen st ncmd o1 o2 : Nat) (rest cmd : List Nat) (timeout : Int)
    (hsend : s.sendResult = .ok k)
    (hpoll : s.polls s.pollIdx = .ok ())
    (hread : s.reads s.readIdx =
      .ok (b0 :: 0x0F :: plen :: st :: ncmd :: o1 :: o2 :: rest))
    (hlen : rest.length + 7 ≤ HCI_MAX_EVENT_SIZE)
    (hop : o1 % 256 + 256 * (o2 % 256) = cmd_opcode_pack ogf ocf) :
    (send_req s ogf ocf cmd timeout).1 = .error (.osError errnoIoErr) ∧
    (send_req s ogf ocf cmd timeout).2.readIdx = s.readIdx + 1 := by
  have hev : eventReadFrom (s.reads s.readIdx) =
      .ok (⟨⟨0x0F, plen % 256⟩,
        .cmdStatus (st % 256) (ncmd % 256) (cmd_opcode_pack ogf ocf), rest⟩,
        rest.length + 7) := by
    rw [hread]
    simp only [eventReadFrom]
    rw [List.take_of_length_le (by simp [HCI_MAX_EVENT_SIZE] at hlen ⊢; omega),
      decodeEvent_cmdStatus, hop]
  rw [send_req_after_send s ogf ocf cmd timeout k hsend]
  have h := reqLoop_first_hit (cmd_opcode_pack ogf ocf) 9 timeout
    { s with filter := ⟨16, 49152, cmd_opcode_pack ogf ocf⟩ }
    ⟨⟨0x0F, plen % 256⟩,
      .cmdStatus (st % 256) (ncmd % 256) (cmd_opcode_pack ogf ocf), rest⟩
    (rest.length + 7) (.error (.osError errnoIoErr)) hpoll hev
    (by simp [matchResponse])
  exact ⟨h.1, h.2⟩

/-- Witness for C7 on the scripted socket whose first packet is a CmdStatus
for opcode 0x0C24. -/
theorem send_req_cmd_status_fails_witness :
    sockCmdStatus.sendResult = .ok 4 ∧
    sockCmdStatus.polls sockCmdStatus.pollIdx = .ok () ∧
    sockCmdStatus.reads sockCmdStatus.readIdx =
      .ok (4 :: 0x0F :: 4 :: 0 :: 1 :: 0x24 :: 0x0C :: []) ∧
    ([] : List Nat).length + 7 ≤ HCI_MAX_EVENT_SIZE ∧
    0x24 % 256 + 256 * (0x0C % 256) = cmd_opcode_pack 3 0x24 ∧
    ((send_req sockCmdStatus 3 0x24 [] 1000).1 = .error (.osError errnoIoErr) ∧
      (send_req sockCmdStatus 3 0x24 [] 1000).2.readIdx =
        sockCmdStatus.readIdx + 1) :=
  ⟨rfl, rfl, rfl, by decide, by decide,
    send_req_cmd_status_fails sockCmdStatus 3 0x24 4 4 4 0 1 0x24 0x0C
      [] [] 1000 rfl rfl rfl (by decide) (by decide)⟩

/-- C8: when the command was sent, every scripted poll reports readiness and
every received packet decodes to an event that is neither a CmdComplete nor
an opcode-matching CmdStatus for the request's packed opcode, `send_req`
exhausts its fixed cap of 10 attempts and fails with
`Error::from_raw_os_error(ETIMEDOUT)` (errno 110, distinct from the EIO used
for other failures), and the originally saved filter is the one in effect
after the call. -/
theorem send_req_attempt_exhaustion (s : ScriptSocket) (ogf ocf k : Nat)
    (cmd : List Nat) (timeout : Int)
    (hsend : s.sendResult = .ok k)
    (hpolls : ∀ i, s.polls i = .ok ())
    (hreads : ∀ i, ∃ ev m, eventReadFrom (s.reads i) = .ok (ev, m) ∧
      matchResponse (cmd_opcode_pack ogf ocf) ev = none) :
    (send_req s ogf ocf cmd timeout).1 = .error (.osError errnoTimedOut) ∧
    errnoTimedOut ≠ errnoIoErr ∧
    (send_req s ogf ocf cmd timeout).2.filter = s.filter := by
  rw [send_req_after_send s ogf ocf cmd timeout k hsend]
  have h := reqLoop_no_match (cmd_opcode_pack ogf ocf) 10 timeout
    { s with filter := ⟨16, 49152, cmd_opcode_pack ogf ocf⟩ } hpolls hreads
  exact ⟨h.1, by decide, rfl⟩

/-- Witness for C8 on the scripted socket that only ever delivers events of
the unsupported kind 0x10. -/
theorem send_req_attempt_exhaustion_witness :
    sockNoMatch.sendResult = .ok 4 ∧
    ((send_req sockNoMatch 3 0x24 [] 25).1 = .error (.osError errnoTimedOut) ∧
      errnoTimedOut ≠ errnoIoErr ∧
      (send_req sockNoMatch 3 0x24 [] 25).2.filter = sockNoMatch.filter) :=
  ⟨rfl, send_req_attempt_exhaustion sockNoMatch 3 0x24 4 [] 25 rfl (fun _ => rfl)
    (fun _ => ⟨⟨⟨0x10, 0⟩, .unsupported, []⟩, 3, rfl, rfl⟩)⟩

end BluezHci
